import Mathlib

/-!
Shallow embedding of the SEC EDGAR 10-K downloader (`translator.py`) of the
repository `pdf_translator`, restricted to the filing discovery-and-filter
pipeline that the specification describes: CIK zero padding, file name
sanitisation, the retrying registry fetch, the filing filter of
`process_filings`, destination-path construction, and the Streamlit button
handler guarding the run.

Conventions of the embedding:
* Python machine strings become `String` / `List Char`; indexing a Python
  list (`xs[i]`, which raises `IndexError` when out of range) becomes
  `xs[i]?` with the `none` case mapped to `Except.error ()`, while guarded
  accesses (`xs[i] if i < len(xs) else ""`) become `List.getD`.
* The `datetime.strptime` call with the dashed year-month-day format is
  modelled by `parseDate`, following the field patterns CPython compiles
  for the three directives (a four-digit year, a one-or-two-digit month,
  a one-or-two-digit or space-padded day) and the validation of the
  `datetime` constructor; a failure is `none` (the `ValueError` branch).
* Network traffic and UI output are modelled as an oracle of attempt
  outcomes plus an explicit `Effect` trace (registry GET requests, the no-CIK
  warning, error reports, and PDF file writes).
-/

/-- One calendar date as produced by `datetime.strptime(s, "%Y-%m-%d")`. -/
structure SDate where
  year : Nat
  month : Nat
  day : Nat
deriving DecidableEq, Repr

/-- Proleptic Gregorian leap-year rule used by Python `datetime`. -/
def isLeapYear (y : Nat) : Bool :=
  y % 4 == 0 && (y % 100 != 0 || y % 400 == 0)

/-- Number of days of month `m` of year `y` (Python `datetime` validation). -/
def daysInMonth (y m : Nat) : Nat :=
  if m == 2 then (if isLeapYear y then 29 else 28)
  else if m == 4 || m == 6 || m == 9 || m == 11 then 30
  else 31

/-- Python `str.split(sep)` on a list of characters for a one-character
separator: every occurrence of the separator cuts the string, and the
result always has one more part than there are separators. -/
def splitOnChar (sep : Char) : List Char → List (List Char)
  | [] => [[]]
  | c :: rest =>
    let r := splitOnChar sep rest
    if c = sep then [] :: r
    else
      match r with
      | [] => [[c]]
      | h :: t => (c :: h) :: t

/-- Decimal value of a digit run. -/
def digitRunVal (l : List Char) : Nat :=
  l.foldl (fun a c => a * 10 + (c.toNat - 48)) 0

/-- Value of a nonempty all-digit character run (a successful Python `int`
conversion of the strings arising here); `none` otherwise. -/
def digitsVal (l : List Char) : Option Nat :=
  if l ≠ [] ∧ l.all Char.isDigit then some (digitRunVal l)
  else none

/-- The year field of the CPython strptime pattern for the directive
concerned: exactly four digits. -/
def matchYear (l : List Char) : Option Nat :=
  if l.length = 4 ∧ l.all Char.isDigit then some (digitRunVal l) else none

/-- The month field of the CPython strptime pattern: the values 1 to 12
written with one or two digits (a one-digit month may not be space
padded). -/
def matchMonth (l : List Char) : Option Nat :=
  if (l.length = 1 ∨ l.length = 2) ∧ l.all Char.isDigit then
    let m := digitRunVal l
    if 1 ≤ m ∧ m ≤ 12 then some m else none
  else none

/-- The day field of the CPython strptime pattern: the values 1 to 31
written with one or two digits, or a space followed by a nonzero digit. -/
def matchDay (l : List Char) : Option Nat :=
  match l with
  | [c] => if c.isDigit ∧ c ≠ '0' then some (c.toNat - 48) else none
  | [c1, c2] =>
    if c1 = ' ' ∧ c2.isDigit ∧ c2 ≠ '0' then some (c2.toNat - 48)
    else if c1.isDigit ∧ c2.isDigit then
      let d := (c1.toNat - 48) * 10 + (c2.toNat - 48)
      if 1 ≤ d ∧ d ≤ 31 then some d else none
    else none
  | _ => none

/-- Model of the `datetime.strptime` call of line 150 with the dashed
year-month-day format: the compiled pattern is the year field, a literal
dash, the month field, a dash, the day field, and must consume the whole
string, so the input splits at its dashes into exactly three runs, each
fully matched by its field pattern; the `datetime` constructor then
requires a positive year and a day that exists in the month. `none` is the
`ValueError` outcome. -/
def parseDate (s : String) : Option SDate :=
  match splitOnChar '-' s.data with
  | [ys, ms, ds] =>
    match matchYear ys, matchMonth ms, matchDay ds with
    | some y, some m, some d =>
      if 1 ≤ y ∧ d ≤ daysInMonth y m then some ⟨y, m, d⟩ else none
    | _, _, _ => none
  | _ => none

/-- The nine characters removed by `sanitize_filename`. -/
def unsafeChars : List Char := ['\\', '/', '*', '?', ':', '"', '<', '>', '|']

/-- `sanitize_filename`: `re.sub` with an empty replacement deletes every
occurrence of the character class and keeps all other characters in order. -/
def sanitize_filename (name : String) : String :=
  ⟨name.data.filter (fun c => decide (c ∉ unsafeChars))⟩

/-- `accno_str.replace('-', '')`: delete every dash. -/
def removeDashes (s : String) : String :=
  ⟨s.data.filter (fun c => !(c == '-'))⟩

/-- `zero_pad_cik` on the successful `int(cik)` branch: the Python format
specifier 010d left-pads the decimal representation with zeros to width 10
and leaves longer representations unchanged. -/
def zero_pad_cik (cik : Nat) : String :=
  ⟨List.replicate (10 - (Nat.repr cik).data.length) '0' ++ (Nat.repr cik).data⟩

/-- One resolved filing task, the dictionary appended to
`filings_to_process` (lines 160 to 166 of `translator.py`). -/
structure FilingTask where
  company_name : String
  year : Nat
  filing_date : String
  accession_number : String
  download_link : String
deriving DecidableEq, Repr

/-- The `filings/recent` object of the registry JSON: four parallel arrays,
each read with `recent.get(key, [])`. -/
structure RecentFilings where
  form : List String
  filingDate : List String
  accessionNumber : List String
  primaryDocument : List String
deriving DecidableEq, Repr

/-- Construction of the task dictionary for one matching filing, including
the download URL of line 159: `int(cik_padded)` renders the identifier
without padding, and the accession number loses its dashes in the URL path
segment. -/
def buildFilingTask (cik : Nat) (co : String) (year : Nat)
    (ds accno pdoc : String) : FilingTask :=
  { company_name := co
    year := year
    filing_date := ds
    accession_number := accno
    download_link :=
      "https://www.sec.gov/Archives/edgar/data/" ++ Nat.repr cik ++ "/"
        ++ removeDashes accno ++ "/" ++ pdoc }

/-- Body of the filtering loop of `process_filings` (lines 144 to 166) for
index `i`. `Except.error ()` is an uncaught Python exception: an
`IndexError` reading `date_list[i]` or `accno_list[i]`, or the `ValueError`
of `int(cik_padded)` on a non-numeric identifier (`cikOpt = none`);
`Except.ok none` is a `continue`. The `primaryDocument` read is guarded in
the source and therefore total here. -/
def entryStep (r : RecentFilings) (sy ey : Nat) (cikOpt : Option Nat)
    (co : String) (i : Nat) : Except Unit (Option FilingTask) :=
  if r.form.getD i "" ∈ ["10-K", "10-K/A"] then
    match r.filingDate[i]? with
    | none => Except.error ()
    | some ds =>
      match parseDate ds with
      | none => Except.ok none
      | some d =>
        if d.year < sy ∨ ey < d.year then Except.ok none
        else
          match r.accessionNumber[i]? with
          | none => Except.error ()
          | some accno =>
            match cikOpt with
            | none => Except.error ()
            | some cik =>
              Except.ok (some (buildFilingTask cik co d.year ds accno
                (r.primaryDocument.getD i "")))
  else Except.ok none

/-- The task produced by entry `i`, if any (and none when the entry raises). -/
def entryTask (r : RecentFilings) (sy ey : Nat) (cikOpt : Option Nat)
    (co : String) (i : Nat) : Option FilingTask :=
  match entryStep r sy ey cikOpt co i with
  | Except.ok o => o
  | Except.error _ => none

/-- The filtering loop of `process_filings` over a list of indices,
accumulating tasks in order and propagating the first uncaught exception. -/
def filterLoop (r : RecentFilings) (sy ey : Nat) (cikOpt : Option Nat)
    (co : String) : List Nat → Except Unit (List FilingTask)
  | [] => Except.ok []
  | i :: rest =>
    match entryStep r sy ey cikOpt co i with
    | Except.error e => Except.error e
    | Except.ok o =>
      match filterLoop r sy ey cikOpt co rest with
      | Except.error e => Except.error e
      | Except.ok tail =>
        Except.ok (match o with
          | some t => t :: tail
          | none => tail)

/-- `for i in range(len(form_list)): ...` — the whole filter of
`process_filings` for one company. -/
def filterFilings (r : RecentFilings) (sy ey : Nat) (cikOpt : Option Nat)
    (co : String) : Except Unit (List FilingTask) :=
  filterLoop r sy ey cikOpt co (List.range r.form.length)

/-- Destination path of one task (lines 181 to 186): `os.path.join` with the
POSIX separator, `str(year)` as the year folder, and the literal file name
built from the string `10K_`, the filing date and the dash-free accession
number. -/
def savePath (output_dir : String) (t : FilingTask) : String :=
  output_dir ++ "/" ++ sanitize_filename t.company_name ++ "/"
    ++ Nat.repr t.year ++ "/" ++ "10K_" ++ t.filing_date ++ "_"
    ++ removeDashes t.accession_number ++ ".pdf"

/-- Outcome of one `requests.get` attempt inside `fetch_sec_json`: either a
response with an HTTP status and an already parsed body, or a raised
exception (transport failure, timeout, or a body that fails to parse). -/
inductive FetchOutcome (J : Type) where
  | ok (status : Nat) (body : J)
  | exn
deriving DecidableEq, Repr

/-- Whether an attempt outcome is a success the loop returns on. -/
def isSuccess {J : Type} : FetchOutcome J → Bool
  | FetchOutcome.ok s _ => s == 200
  | FetchOutcome.exn => false

/-- The retry loop of `fetch_sec_json`, indexed by the current attempt
number and the number of attempts left. Besides the optional body it
returns how many requests were actually issued. -/
def fetchAux {J : Type} (respond : Nat → FetchOutcome J) :
    Nat → Nat → Option J × Nat
  | _, 0 => (none, 0)
  | attempt, rem + 1 =>
    match respond attempt with
    | FetchOutcome.ok s body =>
      if s = 200 then (some body, 1)
      else
        let r := fetchAux respond (attempt + 1) rem
        (r.1, r.2 + 1)
    | FetchOutcome.exn =>
      let r := fetchAux respond (attempt + 1) rem
      (r.1, r.2 + 1)

/-- `fetch_sec_json(cik_str, max_retries=3, delay=2)`: attempts are numbered
from 1 as in `range(1, max_retries + 1)`; the body is returned on the first
status-200 response, and `none` after exhausting all attempts. The
inter-attempt `time.sleep(delay)` has no observable effect in this model. -/
def fetch_sec_json {J : Type} (respond : Nat → FetchOutcome J)
    (maxRetries : Nat) : Option J × Nat :=
  fetchAux respond 1 maxRetries

/-- The CIK cell of one spreadsheet row as the defaulted dictionary read of line 125 yields it:
absent (`None`), a string, or a number. -/
inductive CikCell where
  | missing
  | num (n : Nat)
  | str (s : String)
deriving DecidableEq, Repr

/-- Python truth-value test `not cik_raw` of line 127: `None`, `0` and the
empty string are falsy. -/
def cikFalsy : CikCell → Bool
  | CikCell.missing => true
  | CikCell.num n => n == 0
  | CikCell.str s => s == ""

/-- `zero_pad_cik` on a raw cell: `int(cik)` succeeds on numbers and digit
strings and the value is formatted zero padded to width 10; on `ValueError` the
fallback is `str(cik).rjust(10, "0")`. A missing cell never reaches this
function because falsy cells are skipped first. -/
def zero_pad_cik_cell : CikCell → String
  | CikCell.missing => ""
  | CikCell.num n => zero_pad_cik n
  | CikCell.str s =>
    match digitsVal s.data with
    | some v => zero_pad_cik v
    | none => ⟨List.replicate (10 - s.data.length) '0' ++ s.data⟩

/-- One spreadsheet row: the CIK cell and the company display name. -/
structure CompanyRow where
  cik : CikCell
  name : String
deriving DecidableEq, Repr

/-- Observable effects of a run: the no-CIK warning of line 128, one
registry GET request per attempt of `fetch_sec_json`, an error report
(`st.error`), and a PDF written to a destination path. -/
inductive Effect where
  | warnNoCik (name : String)
  | fetch (cikStr : String)
  | reportError (msg : String)
  | write (path : String)
deriving DecidableEq, Repr

/-- The parsed registry body: `none` abstracts every body on which
`not sec_data or "filings" not in sec_data or "recent" not in
sec_data["filings"]` holds, `some r` a body with a `filings/recent`
object. -/
abbrev SecJson : Type := Option RecentFilings

/-- Processing of one spreadsheet row (lines 124 to 166): skip falsy CIK
cells with a warning, fetch the registry JSON with three attempts, report
and skip a company without filing data, and otherwise run the filing
filter. The oracle maps a padded CIK string and an attempt number to the
outcome of that request. -/
def processRow (oracle : String → Nat → FetchOutcome SecJson)
    (sy ey : Nat) (row : CompanyRow) :
    Except Unit (List Effect × List FilingTask) :=
  if cikFalsy row.cik then
    Except.ok ([Effect.warnNoCik row.name], [])
  else
    let cikp := zero_pad_cik_cell row.cik
    let fr := fetch_sec_json (oracle cikp) 3
    let fes := List.replicate fr.2 (Effect.fetch cikp)
    match fr.1 with
    | none =>
      Except.ok (fes ++ [Effect.reportError
        ("No filings data found for CIK=" ++ cikp)], [])
    | some none =>
      Except.ok (fes ++ [Effect.reportError
        ("No filings data found for CIK=" ++ cikp)], [])
    | some (some recent) =>
      match filterFilings recent sy ey (digitsVal cikp.data) row.name with
      | Except.error e => Except.error e
      | Except.ok tasks => Except.ok (fes, tasks)

/-- `for idx, row in df.iterrows(): ...` — all rows in order, concatenating
effects and collected tasks, propagating an uncaught exception. -/
def processRows (oracle : String → Nat → FetchOutcome SecJson)
    (sy ey : Nat) : List CompanyRow →
    Except Unit (List Effect × List FilingTask)
  | [] => Except.ok ([], [])
  | row :: rest =>
    match processRow oracle sy ey row with
    | Except.error e => Except.error e
    | Except.ok (e1, t1) =>
      match processRows oracle sy ey rest with
      | Except.error e => Except.error e
      | Except.ok (e2, t2) => Except.ok (e1 ++ e2, t1 ++ t2)

/-- `process_filings`: collect tasks over all rows, report when nothing
matched, and otherwise write one PDF per task at its destination path (the
browser render step is abstracted to the resulting file write). -/
def process_filings (oracle : String → Nat → FetchOutcome SecJson)
    (rows : List CompanyRow) (sy ey : Nat) (output_dir : String) :
    Except Unit (List Effect) :=
  match processRows oracle sy ey rows with
  | Except.error e => Except.error e
  | Except.ok (effs, tasks) =>
    if tasks.isEmpty then
      Except.ok (effs ++ [Effect.reportError
        "No filings found in the specified year range."])
    else
      Except.ok (effs ++ tasks.map (fun t =>
        Effect.write (savePath output_dir t)))

/-- The Process Filings button handler (lines 216 to 224): a missing upload
is reported first, then an inverted year range, and only then does
processing start. -/
def appRun (excel : Option (List CompanyRow)) (sy ey : Nat)
    (oracle : String → Nat → FetchOutcome SecJson) (output_dir : String) :
    Except Unit (List Effect) :=
  match excel with
  | none =>
    Except.ok [Effect.reportError
      "Please upload an Excel file before processing."]
  | some rows =>
    if sy > ey then
      Except.ok [Effect.reportError
        "Start year must be less than or equal to End year."]
    else process_filings oracle rows sy ey output_dir

/-- Scenario index of the specification: a 10-K of 2019 and a 10-Q. -/
def sampleRecent : RecentFilings :=
  { form := ["10-K", "10-Q"]
    filingDate := ["2019-03-01", "2019-06-01"]
    accessionNumber := ["0000011-19-000005", "0000011-19-000006"]
    primaryDocument := ["a.htm", "b.htm"] }

/-- Index with a single 10-K whose filing date is unparsable. -/
def badDateRecent : RecentFilings :=
  { form := ["10-K"]
    filingDate := ["not-a-date"]
    accessionNumber := ["0000011-19-000005"]
    primaryDocument := ["a.htm"] }

/-- Index with a single 10-K entry whose date field is missing: the
`filingDate` array is shorter than the `form` array. -/
def missingDateRecent : RecentFilings :=
  { form := ["10-K"]
    filingDate := []
    accessionNumber := []
    primaryDocument := [] }

/-- Index with a single 10-K/A amendment filing of 2019. -/
def amendmentRecent : RecentFilings :=
  { form := ["10-K/A"]
    filingDate := ["2019-03-01"]
    accessionNumber := ["0000011-19-000005"]
    primaryDocument := ["a.htm"] }

/-- The task built from the amendment scenario entry. -/
def sampleTask : FilingTask :=
  buildFilingTask 11 "Acme" 2019 "2019-03-01" "0000011-19-000005" "a.htm"

/-- Index with a single 10-K whose filing date has a three-digit year,
which the strptime year field (exactly four digits) rejects. -/
def shortYearRecent : RecentFilings :=
  { form := ["10-K"]
    filingDate := ["219-03-01"]
    accessionNumber := ["0000011-19-000005"]
    primaryDocument := ["a.htm"] }

/-- Index with a single 10-K whose filing date has a space-padded day,
which the strptime day field accepts. -/
def spacePaddedRecent : RecentFilings :=
  { form := ["10-K"]
    filingDate := ["2019-03- 1"]
    accessionNumber := ["0000011-19-000005"]
    primaryDocument := ["a.htm"] }

/-- A registry oracle that fails on the first attempt and answers with
status 200 on the second. -/
def sampleOracle : String → Nat → FetchOutcome SecJson :=
  fun _ attempt =>
    if attempt = 2 then FetchOutcome.ok 200 (some sampleRecent)
    else FetchOutcome.exn

/-- A registry oracle on which every request raises. -/
def downOracle : String → Nat → FetchOutcome SecJson :=
  fun _ _ => FetchOutcome.exn

/-- Reading a list at an in-range index agrees with the defaulted read. -/
theorem getElem?_eq_some_getD {l : List String} {i : Nat}
    (h : i < l.length) : l[i]? = some (l.getD i "") := by
  simp [List.getD_eq_getElem?_getD, List.getElem?_eq_getElem h]

/-- C5: an identifier with fewer than 10 decimal digits is zero padded on
the left to exactly 10 characters, the identifier itself kept right
aligned; in particular 1156375 pads to 0001156375. -/
theorem zero_pad_cik_width (cik : Nat)
    (h : (Nat.repr cik).data.length < 10) :
    (zero_pad_cik cik).length = 10 ∧
    (zero_pad_cik cik).data.drop (10 - (Nat.repr cik).data.length)
      = (Nat.repr cik).data ∧
    (∀ c ∈ (zero_pad_cik cik).data.take (10 - (Nat.repr cik).data.length),
      c = '0') ∧
    zero_pad_cik 1156375 = "0001156375" := by
  refine ⟨?_, ?_, ?_, by decide⟩
  · show (List.replicate (10 - (Nat.repr cik).data.length) '0'
      ++ (Nat.repr cik).data).length = 10
    rw [List.length_append, List.length_replicate]
    omega
  · show (List.replicate (10 - (Nat.repr cik).data.length) '0'
      ++ (Nat.repr cik).data).drop (10 - (Nat.repr cik).data.length)
      = (Nat.repr cik).data
    exact List.drop_left' (List.length_replicate _ _)
  · intro c hc
    rw [show (zero_pad_cik cik).data
        = List.replicate (10 - (Nat.repr cik).data.length) '0'
          ++ (Nat.repr cik).data from rfl,
      List.take_left' (List.length_replicate _ _)] at hc
    exact List.eq_of_mem_replicate hc

/-- C5 witness at the scenario identifier. -/
theorem zero_pad_cik_width_witness :
    (Nat.repr 1156375).data.length < 10 ∧
    zero_pad_cik 1156375 = "0001156375" :=
  ⟨by decide, (zero_pad_cik_width 1156375 (by decide)).2.2.2⟩

/-- C7: the sanitized name contains none of the nine unsafe characters,
is an in-order selection of the input characters, keeps every safe
character with its multiplicity, and the scenario name sanitizes as the
specification states. -/
theorem sanitize_filename_spec (name : String) :
    (∀ c ∈ (sanitize_filename name).data, c ∉ unsafeChars) ∧
    (sanitize_filename name).data.Sublist name.data ∧
    (∀ c : Char, c ∉ unsafeChars →
      (sanitize_filename name).data.count c = name.data.count c) ∧
    sanitize_filename "Acme/Corp: Inc." = "AcmeCorp Inc." := by
  refine ⟨?_, List.filter_sublist _, ?_, by decide⟩
  · intro c hc
    exact of_decide_eq_true (List.mem_filter.1 hc).2
  · intro c hcsafe
    exact List.count_filter (decide_eq_true hcsafe)

/-- C7 witness at the scenario company name. -/
theorem sanitize_filename_spec_witness :
    sanitize_filename "Acme/Corp: Inc." = "AcmeCorp Inc." :=
  (sanitize_filename_spec "Acme/Corp: Inc.").2.2.2

/-- Closed form of the loop body at an in-bounds index: all array reads
succeed, so the entry either yields its task or is skipped, and never
raises. -/
theorem entryStep_eq (r : RecentFilings) (sy ey cik : Nat) (co : String)
    (i : Nat) (hd : i < r.filingDate.length)
    (ha : i < r.accessionNumber.length) :
    entryStep r sy ey (some cik) co i =
      (if r.form.getD i "" ∈ ["10-K", "10-K/A"] then
        match parseDate (r.filingDate.getD i "") with
        | none => Except.ok none
        | some d =>
          if d.year < sy ∨ ey < d.year then Except.ok none
          else
            Except.ok (some (buildFilingTask cik co d.year
              (r.filingDate.getD i "") (r.accessionNumber.getD i "")
              (r.primaryDocument.getD i "")))
      else Except.ok none) := by
  unfold entryStep
  rw [getElem?_eq_some_getD hd, getElem?_eq_some_getD ha]

/-- An in-bounds entry never raises: the only exceptions of the loop body
are out-of-range reads of the date or accession arrays and a non-numeric
identifier. -/
theorem entryStep_ok_of_bounds (r : RecentFilings) (sy ey cik : Nat)
    (co : String) (i : Nat) (hd : i < r.filingDate.length)
    (ha : i < r.accessionNumber.length) :
    ∃ o, entryStep r sy ey (some cik) co i = Except.ok o := by
  rw [entryStep_eq r sy ey cik co i hd ha]
  by_cases hf : r.form.getD i "" ∈ ["10-K", "10-K/A"]
  · rw [if_pos hf]
    cases hp : parseDate (r.filingDate.getD i "") with
    | none => exact ⟨none, rfl⟩
    | some d =>
      by_cases hy : d.year < sy ∨ ey < d.year
      · exact ⟨none, by dsimp only; rw [if_pos hy]⟩
      · exact ⟨_, by dsimp only; rw [if_neg hy]⟩
  · exact ⟨none, if_neg hf⟩

/-- On a list of in-bounds indices the loop never raises and returns
exactly the tasks of the matching entries, in index order. -/
theorem filterLoop_ok (r : RecentFilings) (sy ey cik : Nat) (co : String)
    (l : List Nat)
    (hl : ∀ i ∈ l, i < r.filingDate.length ∧ i < r.accessionNumber.length) :
    filterLoop r sy ey (some cik) co l
      = Except.ok (l.filterMap (entryTask r sy ey (some cik) co)) := by
  induction l with
  | nil => rfl
  | cons i rest ih =>
    obtain ⟨hd, ha⟩ := hl i (List.mem_cons_self i rest)
    obtain ⟨o, ho⟩ := entryStep_ok_of_bounds r sy ey cik co i hd ha
    have htask : entryTask r sy ey (some cik) co i = o := by
      unfold entryTask
      rw [ho]
    have ih2 := ih (fun j hj => hl j (List.mem_cons_of_mem i hj))
    unfold filterLoop
    rw [ho, ih2, List.filterMap_cons, htask]
    cases o <;> rfl

/-- Entry `i` yields a task exactly when its form type is allowed and its
date parses to a year inside the closed range. -/
theorem entryTask_isSome_iff (r : RecentFilings) (sy ey cik : Nat)
    (co : String) (i : Nat) (hd : i < r.filingDate.length)
    (ha : i < r.accessionNumber.length) :
    (entryTask r sy ey (some cik) co i).isSome ↔
      (r.form.getD i "" ∈ ["10-K", "10-K/A"] ∧
       ∃ d, parseDate (r.filingDate.getD i "") = some d ∧
         sy ≤ d.year ∧ d.year ≤ ey) := by
  unfold entryTask
  rw [entryStep_eq r sy ey cik co i hd ha]
  by_cases hf : r.form.getD i "" ∈ ["10-K", "10-K/A"]
  · rw [if_pos hf]
    cases hp : parseDate (r.filingDate.getD i "") with
    | none => simp
    | some d =>
      dsimp only
      by_cases hy : d.year < sy ∨ ey < d.year
      · rw [if_pos hy]
        dsimp only
        constructor
        · intro h
          exact absurd h (by simp)
        · rintro ⟨-, d2, hd2, h1, h2⟩
          cases hd2
          omega
      · rw [if_neg hy]
        dsimp only
        constructor
        · intro _
          exact ⟨hf, d, rfl, by omega, by omega⟩
        · intro _
          rfl
  · rw [if_neg hf]
    dsimp only
    constructor
    · intro h
      exact absurd h (by simp)
    · rintro ⟨h1, -⟩
      exact absurd h1 hf

/-- C1: over parallel index arrays, the filter of process_filings raises no
exception, its output is exactly the in-order selection of the matching
entries, and entry i yields a FilingTask if and only if its form type is
10-K or 10-K/A and its parsed filing date year y satisfies
start_year ≤ y ≤ end_year; no task arises from an entry outside either
bound. -/
theorem filterFilings_task_iff (r : RecentFilings) (sy ey cik : Nat)
    (co : String) (hd : r.form.length ≤ r.filingDate.length)
    (ha : r.form.length ≤ r.accessionNumber.length) :
    ∃ tasks, filterFilings r sy ey (some cik) co = Except.ok tasks ∧
      tasks = (List.range r.form.length).filterMap
        (entryTask r sy ey (some cik) co) ∧
      ∀ i, i < r.form.length →
        ((entryTask r sy ey (some cik) co i).isSome ↔
          (r.form.getD i "" ∈ ["10-K", "10-K/A"] ∧
           ∃ d, parseDate (r.filingDate.getD i "") = some d ∧
             sy ≤ d.year ∧ d.year ≤ ey)) := by
  refine ⟨_, ?_, rfl, ?_⟩
  · exact filterLoop_ok r sy ey cik co (List.range r.form.length)
      (fun i hi => by
        have := List.mem_range.1 hi
        exact ⟨by omega, by omega⟩)
  · intro i hi
    exact entryTask_isSome_iff r sy ey cik co i (by omega) (by omega)

/-- C1 witness at the scenario of the specification — the 10-K of 2019 is
kept and the 10-Q is not — together with the strptime edge cases: a filing
dated 219-03-01 is rejected by the four-digit year field and yields no task
even inside the range 100 to 300, while a filing dated with the space
padded day 2019-03- 1 parses and yields its task. -/
theorem filterFilings_task_iff_witness :
    (∃ tasks, filterFilings sampleRecent 2018 2020 (some 11) "Acme"
        = Except.ok tasks ∧
      tasks = (List.range sampleRecent.form.length).filterMap
        (entryTask sampleRecent 2018 2020 (some 11) "Acme") ∧
      ∀ i, i < sampleRecent.form.length →
        ((entryTask sampleRecent 2018 2020 (some 11) "Acme" i).isSome ↔
          (sampleRecent.form.getD i "" ∈ ["10-K", "10-K/A"] ∧
           ∃ d, parseDate (sampleRecent.filingDate.getD i "") = some d ∧
             2018 ≤ d.year ∧ d.year ≤ 2020))) ∧
    filterFilings sampleRecent 2018 2020 (some 11) "Acme"
      = Except.ok [sampleTask] ∧
    parseDate "219-03-01" = none ∧
    parseDate "2019-03- 1" = some ⟨2019, 3, 1⟩ ∧
    entryTask shortYearRecent 100 300 (some 11) "Acme" 0 = none ∧
    (entryTask spacePaddedRecent 2018 2020 (some 11) "Acme" 0).isSome
      = true :=
  ⟨filterFilings_task_iff sampleRecent 2018 2020 11 "Acme"
    (by decide) (by decide), by rfl, by decide, by decide, by decide,
    by decide⟩

/-- Positions in the filterMap of an appended list: a hit in the left part
sits strictly before a hit in the right part. -/
theorem filterMap_append_positions {α β : Type} (F : α → Option β)
    (l₁ l₂ : List α) {x y : β} (hx : x ∈ l₁.filterMap F)
    (hy : y ∈ l₂.filterMap F) :
    ∃ (a b : Nat), a < b ∧ ((l₁ ++ l₂).filterMap F)[a]? = some x ∧
      ((l₁ ++ l₂).filterMap F)[b]? = some y := by
  obtain ⟨a, hxa⟩ := List.mem_iff_getElem?.1 hx
  obtain ⟨b0, hyb⟩ := List.mem_iff_getElem?.1 hy
  have hlt : a < (l₁.filterMap F).length :=
    (List.getElem?_eq_some_iff.1 hxa).1
  refine ⟨a, (l₁.filterMap F).length + b0, by omega, ?_, ?_⟩
  · rw [List.filterMap_append, List.getElem?_append, if_pos hlt]
    exact hxa
  · rw [List.filterMap_append,
      List.getElem?_append_right (by omega), Nat.add_sub_cancel_left]
    exact hyb

/-- C6: over parallel arrays, when entries i and j both pass the filter and
i < j, the task of entry i appears at a strictly earlier position of the
output than the task of entry j. -/
theorem filterFilings_preserves_order (r : RecentFilings) (sy ey cik : Nat)
    (co : String) (hd : r.form.length ≤ r.filingDate.length)
    (ha : r.form.length ≤ r.accessionNumber.length) (i j : Nat)
    (hij : i < j) (hj : j < r.form.length) (ti tj : FilingTask)
    (hti : entryTask r sy ey (some cik) co i = some ti)
    (htj : entryTask r sy ey (some cik) co j = some tj) :
    ∃ (tasks : List FilingTask) (a b : Nat),
      filterFilings r sy ey (some cik) co = Except.ok tasks ∧
      a < b ∧ tasks[a]? = some ti ∧ tasks[b]? = some tj := by
  have hok : filterFilings r sy ey (some cik) co
      = Except.ok ((List.range r.form.length).filterMap
        (entryTask r sy ey (some cik) co)) :=
    filterLoop_ok r sy ey cik co (List.range r.form.length)
      (fun k hk => by
        have := List.mem_range.1 hk
        exact ⟨by omega, by omega⟩)
  have hmi : i ∈ (List.range r.form.length).take (i + 1) := by
    apply List.getElem?_mem (n := i)
    rw [List.getElem?_take, if_pos (by omega),
      List.getElem?_range (by omega)]
  have hmj : j ∈ (List.range r.form.length).drop (i + 1) := by
    apply List.getElem?_mem (n := j - (i + 1))
    rw [List.getElem?_drop, show i + 1 + (j - (i + 1)) = j from by omega,
      List.getElem?_range (by omega)]
  have hx : ti ∈ ((List.range r.form.length).take (i + 1)).filterMap
      (entryTask r sy ey (some cik) co) :=
    List.mem_filterMap.2 ⟨i, hmi, hti⟩
  have hy : tj ∈ ((List.range r.form.length).drop (i + 1)).filterMap
      (entryTask r sy ey (some cik) co) :=
    List.mem_filterMap.2 ⟨j, hmj, htj⟩
  obtain ⟨a, b, hab, hxa, hyb⟩ :=
    filterMap_append_positions (entryTask r sy ey (some cik) co) _ _ hx hy
  rw [List.take_append_drop] at hxa hyb
  exact ⟨_, a, b, hok, hab, hxa, hyb⟩

/-- C6 witness: two 10-K entries of 2019 stay in index order. -/
theorem filterFilings_preserves_order_witness :
    ∃ (tasks : List FilingTask) (a b : Nat),
      filterFilings
        { form := ["10-K", "10-K"]
          filingDate := ["2019-03-01", "2019-07-01"]
          accessionNumber := ["0000011-19-000005", "0000011-19-000007"]
          primaryDocument := ["a.htm", "c.htm"] }
        2018 2020 (some 11) "Acme" = Except.ok tasks ∧
      a < b ∧
      tasks[a]? = some (buildFilingTask 11 "Acme" 2019 "2019-03-01"
        "0000011-19-000005" "a.htm") ∧
      tasks[b]? = some (buildFilingTask 11 "Acme" 2019 "2019-07-01"
        "0000011-19-000007" "c.htm") :=
  filterFilings_preserves_order
    { form := ["10-K", "10-K"]
      filingDate := ["2019-03-01", "2019-07-01"]
      accessionNumber := ["0000011-19-000005", "0000011-19-000007"]
      primaryDocument := ["a.htm", "c.htm"] }
    2018 2020 11 "Acme" (by decide) (by decide) 0 1 (by decide) (by decide)
    _ _ (by decide) (by decide)

/-- C4 counterexample: an entry whose filing_date field is missing (the
date array is shorter than the form array) is not skipped; the loop raises
an uncaught IndexError, modelled as `Except.error ()`. -/
theorem missing_date_raises_counterexample :
    filterFilings missingDateRecent 2018 2020 (some 11) "Acme"
      = Except.error () := by rfl

/-- C4 amended: an entry whose filing_date string is present but unparsable
as a date is skipped on its own — it yields no task and the filtering loop
still terminates normally over parallel arrays; a date missing from the
array instead raises. -/
theorem unparsable_date_skipped (r : RecentFilings) (sy ey cik : Nat)
    (co : String) (i : Nat) (hi : i < r.form.length)
    (hd : r.form.length ≤ r.filingDate.length)
    (ha : r.form.length ≤ r.accessionNumber.length)
    (hbad : parseDate (r.filingDate.getD i "") = none) :
    entryStep r sy ey (some cik) co i = Except.ok none ∧
    entryTask r sy ey (some cik) co i = none ∧
    ∃ tasks, filterFilings r sy ey (some cik) co = Except.ok tasks := by
  have h1 : entryStep r sy ey (some cik) co i = Except.ok none := by
    rw [entryStep_eq r sy ey cik co i (by omega) (by omega)]
    by_cases hf : r.form.getD i "" ∈ ["10-K", "10-K/A"]
    · rw [if_pos hf, hbad]
    · exact if_neg hf
  refine ⟨h1, by unfold entryTask; rw [h1], ?_⟩
  exact ⟨_, filterLoop_ok r sy ey cik co (List.range r.form.length)
    (fun k hk => by
      have := List.mem_range.1 hk
      exact ⟨by omega, by omega⟩)⟩

/-- C4 witness at the scenario date string not-a-date and at the
program-unparsable short-year date 219-03-01: both entries are skipped on
their own and nothing is raised. -/
theorem unparsable_date_skipped_witness :
    (entryStep badDateRecent 2018 2020 (some 11) "Acme" 0
      = Except.ok none ∧
    entryTask badDateRecent 2018 2020 (some 11) "Acme" 0 = none ∧
    ∃ tasks, filterFilings badDateRecent 2018 2020 (some 11) "Acme"
      = Except.ok tasks) ∧
    (entryStep shortYearRecent 100 300 (some 11) "Acme" 0
      = Except.ok none ∧
    entryTask shortYearRecent 100 300 (some 11) "Acme" 0 = none ∧
    ∃ tasks, filterFilings shortYearRecent 100 300 (some 11) "Acme"
      = Except.ok tasks) :=
  ⟨unparsable_date_skipped badDateRecent 2018 2020 11 "Acme" 0
    (by decide) (by decide) (by decide) (by decide),
  unparsable_date_skipped shortYearRecent 100 300 11 "Acme" 0
    (by decide) (by decide) (by decide) (by decide)⟩

/-- C2 counterexample: the 10-K/A scenario entry produces a task whose file
name begins with the literal 10K, not with the document type 10-K/A of the
entry, so the claimed layout string differs from the actual one. -/
theorem savePath_document_type_counterexample :
    entryTask amendmentRecent 2018 2020 (some 11) "Acme" 0
      = some sampleTask ∧
    savePath "out" sampleTask
      = "out/Acme/2019/10K_2019-03-01_000001119000005.pdf" ∧
    savePath "out" sampleTask
      ≠ "out/Acme/2019/10-K/A_2019-03-01_000001119000005.pdf" :=
  ⟨by rfl, by rfl, by decide⟩

/-- Closed form of the produced task at an in-bounds index. -/
theorem entryTask_eq (r : RecentFilings) (sy ey cik : Nat) (co : String)
    (i : Nat) (hd : i < r.filingDate.length)
    (ha : i < r.accessionNumber.length) :
    entryTask r sy ey (some cik) co i =
      (if r.form.getD i "" ∈ ["10-K", "10-K/A"] then
        match parseDate (r.filingDate.getD i "") with
        | none => none
        | some d =>
          if d.year < sy ∨ ey < d.year then none
          else
            some (buildFilingTask cik co d.year (r.filingDate.getD i "")
              (r.accessionNumber.getD i "") (r.primaryDocument.getD i ""))
      else none) := by
  unfold entryTask
  rw [entryStep_eq r sy ey cik co i hd ha]
  by_cases hf : r.form.getD i "" ∈ ["10-K", "10-K/A"]
  · rw [if_pos hf, if_pos hf]
    cases hp : parseDate (r.filingDate.getD i "") with
    | none => rfl
    | some d =>
      dsimp only
      by_cases hy : d.year < sy ∨ ey < d.year
      · rw [if_pos hy, if_pos hy]
      · rw [if_neg hy, if_neg hy]
  · rw [if_neg hf, if_neg hf]

/-- C2 amended: every produced task saves to
output_dir/sanitized company/year/10K_filing date_accession number without
dashes.pdf — the year the parsed filing year, the prefix the literal 10K
for every document type. -/
theorem savePath_layout (r : RecentFilings) (sy ey cik : Nat)
    (co : String) (i : Nat) (od : String) (t : FilingTask)
    (hd : i < r.filingDate.length) (ha : i < r.accessionNumber.length)
    (h : entryTask r sy ey (some cik) co i = some t) :
    ∃ d, parseDate (r.filingDate.getD i "") = some d ∧
      sy ≤ d.year ∧ d.year ≤ ey ∧
      savePath od t
        = od ++ "/" ++ sanitize_filename co ++ "/" ++ Nat.repr d.year
          ++ "/" ++ "10K_" ++ r.filingDate.getD i "" ++ "_"
          ++ removeDashes (r.accessionNumber.getD i "") ++ ".pdf" := by
  rw [entryTask_eq r sy ey cik co i hd ha] at h
  split at h
  · split at h
    · exact absurd h (by simp)
    · rename_i d hp
      split at h
      · exact absurd h (by simp)
      · rename_i hy
        rw [Option.some_inj] at h
        subst h
        exact ⟨d, hp, by omega, by omega, rfl⟩
  · exact absurd h (by simp)

/-- C2 amended witness at the 10-K/A scenario entry. -/
theorem savePath_layout_witness :
    ∃ d, parseDate (amendmentRecent.filingDate.getD 0 "") = some d ∧
      2018 ≤ d.year ∧ d.year ≤ 2020 ∧
      savePath "out" sampleTask
        = "out" ++ "/" ++ sanitize_filename "Acme" ++ "/"
          ++ Nat.repr d.year ++ "/" ++ "10K_"
          ++ amendmentRecent.filingDate.getD 0 "" ++ "_"
          ++ removeDashes (amendmentRecent.accessionNumber.getD 0 "")
          ++ ".pdf" :=
  savePath_layout amendmentRecent 2018 2020 11 "Acme" 0 "out" sampleTask
    (by decide) (by decide) (by rfl)

/-- C8: task construction is deterministic — two tasks obtained from the
same filing entry and company record are equal, with identical download
URLs and identical destination paths. -/
theorem build_task_idempotent (r : RecentFilings) (sy ey cik : Nat)
    (co od : String) (i : Nat) (t1 t2 : FilingTask)
    (h1 : entryTask r sy ey (some cik) co i = some t1)
    (h2 : entryTask r sy ey (some cik) co i = some t2) :
    t1 = t2 ∧ t1.download_link = t2.download_link ∧
    savePath od t1 = savePath od t2 := by
  have h3 : some t1 = some t2 := h1.symm.trans h2
  rw [Option.some_inj] at h3
  subst h3
  exact ⟨rfl, rfl, rfl⟩

/-- C8 witness: building the scenario task twice gives the same URL and
path. -/
theorem build_task_idempotent_witness :
    sampleTask = sampleTask ∧
    sampleTask.download_link = sampleTask.download_link ∧
    savePath "out" sampleTask = savePath "out" sampleTask :=
  build_task_idempotent amendmentRecent 2018 2020 11 "Acme" "out" 0
    sampleTask sampleTask (by rfl) (by rfl)

/-- The retry loop issues at most as many requests as it has attempts
left. -/
theorem fetchAux_count_le {J : Type} (respond : Nat → FetchOutcome J) :
    ∀ (rem a : Nat), (fetchAux respond a rem).2 ≤ rem := by
  intro rem
  induction rem with
  | zero => intro a; simp [fetchAux]
  | succ rem ih =>
    intro a
    unfold fetchAux
    cases hr : respond a with
    | ok s body =>
      dsimp only
      by_cases hs : s = 200
      · rw [if_pos hs]
        simp
      · rw [if_neg hs]
        dsimp only
        have := ih (a + 1)
        omega
    | exn =>
      dsimp only
      have := ih (a + 1)
      omega

/-- The retry loop returns the body of the first successful attempt,
counting the requests issued up to it. -/
theorem fetchAux_first {J : Type} (respond : Nat → FetchOutcome J) :
    ∀ (rem a k : Nat) (b : J), k < rem →
      respond (a + k) = FetchOutcome.ok 200 b →
      (∀ k2, k2 < k → isSuccess (respond (a + k2)) = false) →
      fetchAux respond a rem = (some b, k + 1) := by
  intro rem
  induction rem with
  | zero => intro a k b hk; exact absurd hk (by omega)
  | succ rem ih =>
    intro a k b hk hsucc hfail
    unfold fetchAux
    cases k with
    | zero =>
      rw [Nat.add_zero] at hsucc
      rw [hsucc]
      simp
    | succ k1 =>
      have h0 : isSuccess (respond a) = false := by
        have := hfail 0 (by omega)
        rwa [Nat.add_zero] at this
      cases hr : respond a with
      | ok s body =>
        have hs : s ≠ 200 := by
          intro he
          subst he
          rw [hr] at h0
          simp [isSuccess] at h0
        dsimp only
        rw [if_neg hs]
        try dsimp only
        have ihx := ih (a + 1) k1 b (by omega)
          (by rw [show a + 1 + k1 = a + (k1 + 1) from by omega]; exact hsucc)
          (fun k2 hk2 => by
            rw [show a + 1 + k2 = a + (k2 + 1) from by omega]
            exact hfail (k2 + 1) (by omega))
        rw [ihx]
      | exn =>
        dsimp only
        have ihx := ih (a + 1) k1 b (by omega)
          (by rw [show a + 1 + k1 = a + (k1 + 1) from by omega]; exact hsucc)
          (fun k2 hk2 => by
            rw [show a + 1 + k2 = a + (k2 + 1) from by omega]
            exact hfail (k2 + 1) (by omega))
        rw [ihx]

/-- When no attempt succeeds the retry loop yields no body. -/
theorem fetchAux_none {J : Type} (respond : Nat → FetchOutcome J) :
    ∀ (rem a : Nat), (∀ k, k < rem → isSuccess (respond (a + k)) = false) →
      (fetchAux respond a rem).1 = none := by
  intro rem
  induction rem with
  | zero => intro a _; simp [fetchAux]
  | succ rem ih =>
    intro a hfail
    have h0 : isSuccess (respond a) = false := by
      have := hfail 0 (by omega)
      rwa [Nat.add_zero] at this
    unfold fetchAux
    cases hr : respond a with
    | ok s body =>
      have hs : s ≠ 200 := by
        intro he
        subst he
        rw [hr] at h0
        simp [isSuccess] at h0
      dsimp only
      rw [if_neg hs]
      try dsimp only
      exact ih (a + 1) (fun k hk => by
        rw [show a + 1 + k = a + (k + 1) from by omega]
        exact hfail (k + 1) (by omega))
    | exn =>
      dsimp only
      exact ih (a + 1) (fun k hk => by
        rw [show a + 1 + k = a + (k + 1) from by omega]
        exact hfail (k + 1) (by omega))

/-- Unfolding of the row loop on a cons cell. -/
theorem processRows_cons (oracle : String → Nat → FetchOutcome SecJson)
    (sy ey : Nat) (row : CompanyRow) (rest : List CompanyRow) :
    processRows oracle sy ey (row :: rest) =
      match processRow oracle sy ey row with
      | Except.error e => Except.error e
      | Except.ok (e1, t1) =>
        match processRows oracle sy ey rest with
        | Except.error e => Except.error e
        | Except.ok (e2, t2) => Except.ok (e1 ++ e2, t1 ++ t2) := rfl

/-- C3: for one identifier, fetch_sec_json issues at most max_retries
requests, returns the parsed body of the first status-200 attempt, returns
none after exhausting all attempts without success instead of raising, and
the caller then reports the company and continues with the remaining
rows. -/
theorem fetch_sec_json_spec
    (oracle : String → Nat → FetchOutcome SecJson) (cikStr : String)
    (m : Nat) :
    (fetch_sec_json (oracle cikStr) m).2 ≤ m ∧
    (∀ k b, k < m → oracle cikStr (k + 1) = FetchOutcome.ok 200 b →
      (∀ k2, k2 < k → isSuccess (oracle cikStr (k2 + 1)) = false) →
      fetch_sec_json (oracle cikStr) m = (some b, k + 1)) ∧
    ((∀ k, k < m → isSuccess (oracle cikStr (k + 1)) = false) →
      (fetch_sec_json (oracle cikStr) m).1 = none) ∧
    (∀ (sy ey : Nat) (row : CompanyRow) (rest : List CompanyRow),
      cikFalsy row.cik = false →
      zero_pad_cik_cell row.cik = cikStr →
      (fetch_sec_json (oracle cikStr) 3).1 = none →
      processRow oracle sy ey row =
        Except.ok (List.replicate (fetch_sec_json (oracle cikStr) 3).2
            (Effect.fetch cikStr)
          ++ [Effect.reportError
            ("No filings data found for CIK=" ++ cikStr)], []) ∧
      processRows oracle sy ey (row :: rest) =
        Except.map (fun p =>
          (List.replicate (fetch_sec_json (oracle cikStr) 3).2
              (Effect.fetch cikStr)
            ++ [Effect.reportError
              ("No filings data found for CIK=" ++ cikStr)] ++ p.1, p.2))
          (processRows oracle sy ey rest)) := by
  refine ⟨fetchAux_count_le (oracle cikStr) m 1, ?_, ?_, ?_⟩
  · intro k b hk hs hfail
    exact fetchAux_first (oracle cikStr) m 1 k b hk
      (by rw [Nat.add_comm 1 k]; exact hs)
      (fun k2 hk2 => by rw [Nat.add_comm 1 k2]; exact hfail k2 hk2)
  · intro hfail
    exact fetchAux_none (oracle cikStr) m 1
      (fun k hk => by rw [Nat.add_comm 1 k]; exact hfail k hk)
  · intro sy ey row rest hfal hcik hnone
    have hrow : processRow oracle sy ey row =
        Except.ok (List.replicate (fetch_sec_json (oracle cikStr) 3).2
            (Effect.fetch cikStr)
          ++ [Effect.reportError
            ("No filings data found for CIK=" ++ cikStr)], []) := by
      unfold processRow
      rw [hfal]
      rw [if_neg (by simp)]
      rw [hcik]
      dsimp only
      rw [hnone]
    refine ⟨hrow, ?_⟩
    rw [processRows_cons, hrow]
    dsimp only
    cases hres : processRows oracle sy ey rest with
    | error e => rfl
    | ok p =>
      cases p with
      | mk e2 t2 =>
        dsimp only [Except.map]
        simp

/-- C3 witness: an oracle that raises on attempt one and succeeds on
attempt two; the fetch returns the body after exactly two requests. -/
theorem fetch_sec_json_spec_witness :
    fetch_sec_json (sampleOracle "0001156375") 3
      = (some (some sampleRecent), 2) :=
  (fetch_sec_json_spec sampleOracle "0001156375" 3).2.1 1
    (some sampleRecent) (by omega) (by rfl)
    (fun k2 hk2 => by
      have hz : k2 = 0 := by omega
      subst hz
      rfl)

/-- A singleton error report contains no registry request and no file
write. -/
theorem report_only_trace (m0 : String) (e : Effect)
    (he : e ∈ [Effect.reportError m0]) :
    (∀ c, e ≠ Effect.fetch c) ∧ (∀ p, e ≠ Effect.write p) := by
  simp only [List.mem_singleton] at he
  subst he
  exact ⟨fun c h => Effect.noConfusion h, fun p h => Effect.noConfusion h⟩

/-- C9: with no uploaded file or with start_year greater than end_year, the
button handler only reports an error: the resulting trace is a single error
report, with no registry fetch and no file write. -/
theorem appRun_invalid_config (excel : Option (List CompanyRow))
    (sy ey : Nat) (oracle : String → Nat → FetchOutcome SecJson)
    (od : String) (h : excel = none ∨ ey < sy) :
    ∃ m, appRun excel sy ey oracle od = Except.ok [Effect.reportError m] ∧
      ∀ tr, appRun excel sy ey oracle od = Except.ok tr →
        ∀ e ∈ tr, (∀ c, e ≠ Effect.fetch c) ∧ (∀ p, e ≠ Effect.write p) := by
  have handle : ∀ m0 : String,
      appRun excel sy ey oracle od = Except.ok [Effect.reportError m0] →
      ∃ m, appRun excel sy ey oracle od = Except.ok [Effect.reportError m] ∧
        ∀ tr, appRun excel sy ey oracle od = Except.ok tr →
          ∀ e ∈ tr, (∀ c, e ≠ Effect.fetch c) ∧
            (∀ p, e ≠ Effect.write p) := by
    intro m0 hm
    refine ⟨m0, hm, ?_⟩
    intro tr htr
    rw [hm] at htr
    injection htr with h3
    intro e he
    rw [← h3] at he
    exact report_only_trace m0 e he
  rcases h with h | h
  · subst h
    exact handle "Please upload an Excel file before processing." rfl
  · cases excel with
    | none =>
      exact handle "Please upload an Excel file before processing." rfl
    | some rows =>
      refine handle "Start year must be less than or equal to End year." ?_
      unfold appRun
      dsimp only
      rw [if_pos (show sy > ey from h)]

/-- C9 witness: no upload reported before any processing. -/
theorem appRun_invalid_config_witness :
    ∃ m, appRun none 2018 2020 downOracle "out"
        = Except.ok [Effect.reportError m] ∧
      ∀ tr, appRun none 2018 2020 downOracle "out" = Except.ok tr →
        ∀ e ∈ tr, (∀ c, e ≠ Effect.fetch c) ∧ (∀ p, e ≠ Effect.write p) :=
  appRun_invalid_config none 2018 2020 downOracle "out" (Or.inl rfl)

/-- C10: a row whose CIK cell is falsy — absent, the empty string, or the
number 0 — is skipped with a warning: it contributes no task, its trace
holds no registry request, and the remaining rows are processed as if the
row were not there (so the valid registry identifier 0 is never looked
up). -/
theorem processRow_falsy_cik_skipped
    (oracle : String → Nat → FetchOutcome SecJson) (sy ey : Nat)
    (cikc : CikCell) (name : String) (rest : List CompanyRow)
    (h : cikc = CikCell.missing ∨ cikc = CikCell.str ""
      ∨ cikc = CikCell.num 0) :
    processRow oracle sy ey ⟨cikc, name⟩
      = Except.ok ([Effect.warnNoCik name], []) ∧
    (∀ effs tasks, processRow oracle sy ey ⟨cikc, name⟩
        = Except.ok (effs, tasks) →
      tasks = [] ∧ ∀ c, Effect.fetch c ∉ effs) ∧
    processRows oracle sy ey (⟨cikc, name⟩ :: rest) =
      Except.map (fun p => (Effect.warnNoCik name :: p.1, p.2))
        (processRows oracle sy ey rest) := by
  have hfal : cikFalsy cikc = true := by
    rcases h with rfl | rfl | rfl <;> rfl
  have h1 : processRow oracle sy ey ⟨cikc, name⟩
      = Except.ok ([Effect.warnNoCik name], []) := by
    unfold processRow
    dsimp only
    rw [hfal]
    rw [if_pos rfl]
  refine ⟨h1, ?_, ?_⟩
  · intro effs tasks h2
    rw [h1] at h2
    injection h2 with h3
    cases h3
    exact ⟨rfl, fun c hc => by simp at hc⟩
  · rw [processRows_cons, h1]
    dsimp only
    cases hres : processRows oracle sy ey rest with
    | error e => rfl
    | ok p =>
      cases p with
      | mk e2 t2 =>
        dsimp only [Except.map]
        simp

/-- C10 witness: a row with CIK cell 0 is skipped with the warning and the
rest of the spreadsheet is processed unchanged. -/
theorem processRow_falsy_cik_skipped_witness :
    processRow downOracle 2018 2020 ⟨CikCell.num 0, "ZeroCo"⟩
      = Except.ok ([Effect.warnNoCik "ZeroCo"], []) ∧
    (∀ effs tasks, processRow downOracle 2018 2020
        ⟨CikCell.num 0, "ZeroCo"⟩ = Except.ok (effs, tasks) →
      tasks = [] ∧ ∀ c, Effect.fetch c ∉ effs) ∧
    processRows downOracle 2018 2020 (⟨CikCell.num 0, "ZeroCo"⟩ :: []) =
      Except.map (fun p => (Effect.warnNoCik "ZeroCo" :: p.1, p.2))
        (processRows downOracle 2018 2020 []) :=
  processRow_falsy_cik_skipped downOracle 2018 2020 (CikCell.num 0)
    "ZeroCo" [] (Or.inr (Or.inr rfl))
